import Mathlib

/-!
Verification development for the knowledge ingestion / retrieval service in
`src/knowledge/views.py`. The three Django views (`KnowledgeView.post`,
`KnowledgeView.delete`, `KnowledgeRetrieveView.post`) are shallowly embedded as
pure functions over an explicit environment of external collaborators
(embedding service, LLM, vector store, blob store, catalog database,
conversation-history store). Service calls that can raise are modelled as
`Except`-valued environment fields; each view returns its HTTP response
together with the resulting state and a trace of observable effects.
Repository helpers that are not part of the source tree
(`helpers.embeddings_helper`, `helpers.db_helper`, `helpers.file_helper`) and
the langchain history wrapper are modelled from the specification, as marked
in their doc comments.
-/

/-- Error payload of a raised exception, as rendered by `str(e)` in the views. -/
abbrev Err := String

/-- Response models `django.http.JsonResponse({"message": ...}, status=...)`:
an HTTP status code plus the `message` field of the JSON body. -/
structure Response where
  status : Nat
  message : String
deriving DecidableEq

/-- JsonResponse with the default status 200. -/
def jsonOk (msg : String) : Response := { status := 200, message := msg }

/-- JsonResponse with an explicit status code. -/
def jsonErr (status : Nat) (msg : String) : Response := { status := status, message := msg }

/-- Modelled from the spec: when an exception escapes the view function outside
any `except` block, the web framework converts it into a generic 500 server
error whose body is not a `JsonResponse` built by the view; the message the
caller sees is the escaping exception, not the originally raised one. -/
def unhandledError (e : Err) : Response :=
  { status := 500, message := "unhandled exception: " ++ e }

/-- One row of `vector_db.models.Collection` as used by the views: a stable
`uuid` and the internal storage `name` (src/knowledge/views.py lines 114, 140,
197). -/
structure Collection where
  uuid : Nat
  name : String
deriving DecidableEq

/-- Modelled from the spec: a transient Similarity Candidate (spec section 3),
a collection id paired with its similarity score. Scores are modelled as
integers; only their ordering matters here. -/
structure SimCandidate where
  cid : Nat
  score : Int
deriving DecidableEq

/-- Modelled from the spec: `EmbeddingsHelper.get_top3_similar_collections`
(helpers/embeddings_helper.py is not under src/). Per spec section 4.2 it
ranks all candidate collections by similarity, descending, with a stable sort
(insertion before the first strictly smaller score) so that ties keep catalog
insertion order, and returns the ids of the top-3 ranked candidates. -/
def get_top3_similar_collections (scored : List SimCandidate) : List Nat :=
  ((scored.insertionSort (fun a b => b.score < a.score)).take 3).map (·.cid)

/-- Modelled from the spec: `EmbeddingsHelper.get_most_similar_collection`
(not under src/). Per spec section 4.2 it picks the single best entry of the
ranked top-3 shortlist. -/
def get_most_similar_collection (shortlist : List Nat) : Option Nat :=
  shortlist.head?

/-- Modelled from the spec: one Similarity Candidate per catalog row, in
catalog insertion order; `score` stands for the vector engine's
cosine/inner-product similarity of the query embedding against the
collection's representative signal. -/
def scoredCatalog (catalog : List Collection) (score : List Int → Nat → Int)
    (v : List Int) : List SimCandidate :=
  catalog.map (fun c => { cid := c.uuid, score := score v c.uuid })

/-- Two-stage collection selection exactly as composed by the query view
(src/knowledge/views.py lines 191-196): the top-3 shortlist is produced first,
then the single best of those three is taken as the final choice. -/
def selectCollection (catalog : List Collection) (score : List Int → Nat → Int)
    (v : List Int) : Option Nat :=
  get_most_similar_collection (get_top3_similar_collections (scoredCatalog catalog score v))

/-- One Conversation Turn of a per-session history (spec section 3): a human
question or an ai answer. -/
inductive Turn where
  | human (content : String)
  | ai (content : String)
deriving DecidableEq

/-- Observable events of one run of the query view. `setEnv` is the
process-wide environment mutation `os.environ["OPENAI_API_KEY"] = ...` at
src/knowledge/views.py line 180; the five pipeline stages correspond to spec
section 4.6 steps 2-6. A stage event is recorded when the stage starts. -/
inductive QStep where
  | setEnv (key : String)
  | embed (question : String)
  | select
  | contextualize
  | retrieve (collection_name question : String)
  | synthesize
deriving DecidableEq

/-- External collaborators of `KnowledgeRetrieveView.post`. `catalog` and
`score` stand for the relational catalog and the vector engine's similarity;
`embed` is `EmbeddingsHelper.generate_embeddings` (note: it receives the api
key explicitly); `rewrite` is the LLM call behind the contextualize prompt;
`search` is the retriever over one named collection; `answer` is the answer
synthesis over history, retrieved chunks and question. Any of them may fail,
in which case the Python call raises and the view's `except` block answers
with the exception message. -/
structure REnv where
  catalog : List Collection
  score : List Int → Nat → Int
  embed : String → String → Except Err (List Int)
  rewrite : List Turn → String → Except Err String
  search : String → String → Except Err (List String)
  answer : List Turn → List String → String → Except Err String

/-- Validated body of a query request (`KnowledgeRetrieveSerializer`):
`valid` is the serializer outcome; the remaining fields are the validated data
read at src/knowledge/views.py lines 176-178. -/
structure RetrieveRequest where
  valid : Bool
  question : String
  openai_api_key : String
  user_id : String

/-- Modelled from the spec: `DBHelper.have_embeddings` (helpers/db_helper.py is
not under src/); per spec section 4.6 step 1 it reports whether any collection
exists at all. -/
def have_embeddings (catalog : List Collection) : Bool :=
  !catalog.isEmpty

/-- Modelled from the spec: the Query Contextualizer (langchain's
`create_history_aware_retriever`, assembled at src/knowledge/views.py lines
218-229; its internals are outside src/). Per spec section 4.3 it has exactly
two behaviours: with no prior history it emits the question unchanged, and
with history it asks the generation service to rewrite the question into a
standalone question, without answering it. -/
def contextualizeQuestion (env : REnv) (hist : List Turn) (q : String) :
    Except Err String :=
  if hist.isEmpty then .ok q else env.rewrite hist q

/-- Message returned when no embeddings exist yet (src/knowledge/views.py
line 184). -/
def noEmbeddingsMsg : String := "No embeddings found. Please create embeddings first"

/-- Conversation-history store: per-session ordered turns, keyed by session id
(the Redis store at src/knowledge/views.py lines 248-250). -/
abbrev HistMap := String → List Turn

/-- Shallow embedding of `KnowledgeRetrieveView.post` (src/knowledge/views.py
lines 169-263). Returns the HTTP response, the conversation-history store
after the request, and the trace of observable steps. The history update of
langchain's `RunnableWithMessageHistory` (lines 246-258) is modelled from the
spec: the new human turn and the new answer turn are appended, in that order,
only after synthesis succeeds; the session key is `user_id` (line 198). -/
def retrievePost (env : REnv) (hists : HistMap) (req : RetrieveRequest) :
    Response × HistMap × List QStep :=
  if req.valid = false then (jsonErr 500 "validation error", hists, [])
  else
    let tr0 := [QStep.setEnv req.openai_api_key]
    if have_embeddings env.catalog = false then
      (jsonOk noEmbeddingsMsg, hists, tr0)
    else
      let tr1 := tr0 ++ [QStep.embed req.question]
      match env.embed req.openai_api_key req.question with
      | .error e => (jsonErr 500 e, hists, tr1)
      | .ok v =>
        let tr2 := tr1 ++ [QStep.select]
        match selectCollection env.catalog env.score v with
        | none => (jsonErr 500 "selection failed", hists, tr2)
        | some cid =>
          match (env.catalog.find? (fun c => c.uuid == cid)).map (·.name) with
          | none => (jsonErr 500 "Collection matching query does not exist.", hists, tr2)
          | some cname =>
            let session_id := req.user_id
            let hist := hists session_id
            let tr3 := tr2 ++ [QStep.contextualize]
            match contextualizeQuestion env hist req.question with
            | .error e => (jsonErr 500 e, hists, tr3)
            | .ok q2 =>
              let tr4 := tr3 ++ [QStep.retrieve cname q2]
              match env.search cname q2 with
              | .error e => (jsonErr 500 e, hists, tr4)
              | .ok chunks =>
                let tr5 := tr4 ++ [QStep.synthesize]
                match env.answer hist chunks q2 with
                | .error e => (jsonErr 500 e, hists, tr5)
                | .ok a =>
                  (jsonOk a,
                   fun k =>
                     if k = session_id then hist ++ [Turn.human req.question, Turn.ai a]
                     else hists k,
                   tr5)

/-- C1: for every query embedding over a non-empty catalog, collection
selection is two-stage (first the top-3 ranked shortlist, then the single
best of those three as the final choice), the chosen collection id belongs to
the catalog, and the shortlist size never exceeds min(3, catalog size). -/
theorem collection_selection_two_stage
    (catalog : List Collection) (score : List Int → Nat → Int) (v : List Int)
    (h : catalog ≠ []) :
    selectCollection catalog score v
        = get_most_similar_collection
            (get_top3_similar_collections (scoredCatalog catalog score v))
      ∧ (∃ c, selectCollection catalog score v = some c ∧ c ∈ catalog.map (·.uuid))
      ∧ (get_top3_similar_collections (scoredCatalog catalog score v)).length
          ≤ min 3 catalog.length := by
  have hsortlen : ((scoredCatalog catalog score v).insertionSort
      (fun a b => b.score < a.score)).length = catalog.length := by
    rw [List.length_insertionSort]
    simp [scoredCatalog]
  refine ⟨rfl, ?_, ?_⟩
  · have hpos : 0 < ((scoredCatalog catalog score v).insertionSort
        (fun a b => b.score < a.score)).length := by
      rw [hsortlen]
      exact List.length_pos.mpr h
    obtain ⟨x, xs, hx⟩ := List.exists_cons_of_ne_nil (List.ne_nil_of_length_pos hpos)
    refine ⟨x.cid, ?_, ?_⟩
    · show get_most_similar_collection
          (get_top3_similar_collections (scoredCatalog catalog score v)) = some x.cid
      unfold get_most_similar_collection get_top3_similar_collections
      rw [hx]
      rfl
    · have hxmem : x ∈ scoredCatalog catalog score v := by
        have : x ∈ (scoredCatalog catalog score v).insertionSort
            (fun a b => b.score < a.score) := by
          rw [hx]; exact List.mem_cons_self _ _
        exact (List.mem_insertionSort _).mp this
      simp only [scoredCatalog, List.mem_map] at hxmem
      obtain ⟨c, hc, hcx⟩ := hxmem
      exact List.mem_map.mpr ⟨c, hc, by rw [← hcx]⟩
  · simp [get_top3_similar_collections, hsortlen]

/-- Witness for C1 at a concrete two-collection catalog. -/
theorem collection_selection_two_stage_witness :
    selectCollection [⟨1, "a"⟩, ⟨2, "b"⟩] (fun _ _ => 0) []
        = get_most_similar_collection
            (get_top3_similar_collections
              (scoredCatalog [⟨1, "a"⟩, ⟨2, "b"⟩] (fun _ _ => 0) []))
      ∧ (∃ c, selectCollection [⟨1, "a"⟩, ⟨2, "b"⟩] (fun _ _ => 0) [] = some c
          ∧ c ∈ ([⟨1, "a"⟩, ⟨2, "b"⟩] : List Collection).map (·.uuid))
      ∧ (get_top3_similar_collections
            (scoredCatalog [⟨1, "a"⟩, ⟨2, "b"⟩] (fun _ _ => 0) [])).length
          ≤ min 3 ([⟨1, "a"⟩, ⟨2, "b"⟩] : List Collection).length :=
  collection_selection_two_stage [⟨1, "a"⟩, ⟨2, "b"⟩] (fun _ _ => 0) [] (by decide)

/-- Pipeline-stage index of a query step, following spec section 4.6 steps
2-6; the environment mutation is not a pipeline stage. -/
def QStep.stage : QStep → Option Nat
  | .setEnv _ => none
  | .embed _ => some 0
  | .select => some 1
  | .contextualize => some 2
  | .retrieve _ _ => some 3
  | .synthesize => some 4

/-- C4: in every query run the pipeline stages occur in the strict order
embed, select, contextualize, retrieve, synthesize: the stage trace is always
a prefix of that canonical order, so no later stage ever runs before an
earlier one. -/
theorem pipeline_stage_order (env : REnv) (hists : HistMap) (req : RetrieveRequest) :
    ((retrievePost env hists req).2.2.filterMap QStep.stage) <+: [0, 1, 2, 3, 4] := by
  simp only [retrievePost]
  repeat' split
  all_goals simp [QStep.stage]

/-- C3: a valid query issued when no collections exist is answered before any
embedding is generated (the only recorded step is the credential mutation),
with a normal 200 response carrying the no-knowledge message, and the history
store is untouched. -/
theorem no_collections_fast_fail (env : REnv) (hists : HistMap) (req : RetrieveRequest)
    (hvalid : req.valid = true) (hempty : env.catalog = []) :
    (retrievePost env hists req).1 = jsonOk noEmbeddingsMsg
      ∧ (retrievePost env hists req).2.2 = [QStep.setEnv req.openai_api_key]
      ∧ (∀ q, QStep.embed q ∉ (retrievePost env hists req).2.2)
      ∧ (retrievePost env hists req).2.1 = hists := by
  simp [retrievePost, hvalid, hempty, have_embeddings]

/-- Concrete environment with an empty catalog, used as the C3 witness
input. -/
def emptyCatalogEnv : REnv where
  catalog := []
  score := fun _ _ => 0
  embed := fun _ _ => .ok []
  rewrite := fun _ q => .ok q
  search := fun _ _ => .ok []
  answer := fun _ _ _ => .ok "ans"

/-- Witness for C3 at a concrete request against the empty catalog. -/
theorem no_collections_fast_fail_witness :
    (retrievePost emptyCatalogEnv (fun _ => []) ⟨true, "q", "sk", "u"⟩).1
        = jsonOk noEmbeddingsMsg
      ∧ (retrievePost emptyCatalogEnv (fun _ => []) ⟨true, "q", "sk", "u"⟩).2.2
        = [QStep.setEnv "sk"]
      ∧ (∀ q, QStep.embed q
          ∉ (retrievePost emptyCatalogEnv (fun _ => []) ⟨true, "q", "sk", "u"⟩).2.2)
      ∧ (retrievePost emptyCatalogEnv (fun _ => []) ⟨true, "q", "sk", "u"⟩).2.1
        = (fun _ => []) :=
  no_collections_fast_fail emptyCatalogEnv (fun _ => []) ⟨true, "q", "sk", "u"⟩ rfl rfl

/-- C2: the new human turn and the new answer turn are appended to the
session's history, in that order, exactly when answer synthesis succeeds
(status 200 with the synthesis stage in the trace); on every other outcome —
any failure from embedding through synthesis, an invalid request, or the
no-collections early exit — the history store is left unchanged, so a retried
call sees the prior state. -/
theorem history_appended_only_after_synthesis
    (env : REnv) (hists : HistMap) (req : RetrieveRequest) :
    ((retrievePost env hists req).1.status = 200
        → QStep.synthesize ∈ (retrievePost env hists req).2.2
        → ((retrievePost env hists req).2.1 req.user_id
              = hists req.user_id
                ++ [Turn.human req.question,
                    Turn.ai (retrievePost env hists req).1.message]
            ∧ ∀ k, k ≠ req.user_id → (retrievePost env hists req).2.1 k = hists k))
      ∧ ((retrievePost env hists req).1.status ≠ 200
            ∨ QStep.synthesize ∉ (retrievePost env hists req).2.2
          → (retrievePost env hists req).2.1 = hists) := by
  simp only [retrievePost]
  repeat' split
  all_goals simp_all [jsonOk, jsonErr]

/-- Concrete environment in which every collaborator succeeds, over a
one-collection catalog. -/
def okEnv : REnv where
  catalog := [⟨1, "col1"⟩]
  score := fun _ _ => 0
  embed := fun _ _ => .ok [1]
  rewrite := fun _ q => .ok ("standalone " ++ q)
  search := fun _ _ => .ok ["chunk"]
  answer := fun _ _ _ => .ok "the answer"

/-- Concrete environment identical to `okEnv` except that retrieval fails. -/
def searchFailEnv : REnv :=
  { okEnv with search := fun _ _ => .error "search down" }

/-- Witness for C2: a fully successful concrete run appends the two turns at
the session key, and a concrete run whose retrieval step fails leaves the
store unchanged. -/
theorem history_appended_only_after_synthesis_witness :
    (retrievePost okEnv (fun _ => []) ⟨true, "q1", "sk", "u1"⟩).2.1 "u1"
        = [] ++ [Turn.human "q1",
            Turn.ai (retrievePost okEnv (fun _ => []) ⟨true, "q1", "sk", "u1"⟩).1.message]
      ∧ (retrievePost searchFailEnv (fun _ => []) ⟨true, "q1", "sk", "u1"⟩).2.1
        = (fun _ => []) := by
  constructor
  · exact ((history_appended_only_after_synthesis okEnv (fun _ => [])
      ⟨true, "q1", "sk", "u1"⟩).1 (by decide) (by decide)).1
  · exact (history_appended_only_after_synthesis searchFailEnv (fun _ => [])
      ⟨true, "q1", "sk", "u1"⟩).2 (by decide)

/-- C5: the contextualizer has exactly two behaviours, observable in the
question the retriever receives: when the session has no prior history,
retrieval runs on the question unchanged; when history exists, retrieval runs
on the standalone rewrite that the generation service produced from the
history and the question. The rewriting stage always precedes the retrieval
stage in the trace. -/
theorem contextualizer_two_modes
    (env : REnv) (hists : HistMap) (req : RetrieveRequest) (cname q2 : String)
    (hmem : QStep.retrieve cname q2 ∈ (retrievePost env hists req).2.2) :
    (hists req.user_id = [] → q2 = req.question)
      ∧ (hists req.user_id ≠ []
          → env.rewrite (hists req.user_id) req.question = .ok q2)
      ∧ (retrievePost env hists req).2.2.filterMap QStep.stage
          = [0, 1, 2, 3] ∨ (retrievePost env hists req).2.2.filterMap QStep.stage
          = [0, 1, 2, 3, 4] := by
  simp only [retrievePost] at hmem ⊢
  repeat' split at hmem
  all_goals simp_all [contextualizeQuestion, QStep.stage]
  all_goals split_ifs at * <;> simp_all

/-- History store holding one prior exchange in every session, used as the C5
witness input. -/
def onePriorTurnMap : HistMap := fun _ => [Turn.human "h0", Turn.ai "a0"]

/-- Witness for C5: in a concrete run with prior history, the retriever
receives the standalone rewrite of the question. -/
theorem contextualizer_two_modes_witness :
    (onePriorTurnMap "u1" = [] → "standalone q1" = "q1")
      ∧ (onePriorTurnMap "u1" ≠ []
          → okEnv.rewrite (onePriorTurnMap "u1") "q1" = .ok "standalone q1")
      ∧ (retrievePost okEnv onePriorTurnMap
            ⟨true, "q1", "sk", "u1"⟩).2.2.filterMap QStep.stage = [0, 1, 2, 3]
        ∨ (retrievePost okEnv onePriorTurnMap
            ⟨true, "q1", "sk", "u1"⟩).2.2.filterMap QStep.stage = [0, 1, 2, 3, 4] :=
  contextualizer_two_modes okEnv onePriorTurnMap ⟨true, "q1", "sk", "u1"⟩
    "col1" "standalone q1" (by decide)

/-- C10: the conversation-history session key is exactly the caller-supplied
user_id. The whole run (response, trace, and the resulting history at that
key) depends on the history store only through the entry at key `user_id`, so
two requests carrying the same user_id share one history — whatever catalog
they are routed over, since the environment is arbitrary here — and no other
session's history is ever read or modified. -/
theorem session_key_is_user_id
    (env : REnv) (h1 h2 : HistMap) (req : RetrieveRequest)
    (hsame : h1 req.user_id = h2 req.user_id) :
    (retrievePost env h1 req).1 = (retrievePost env h2 req).1
      ∧ (retrievePost env h1 req).2.2 = (retrievePost env h2 req).2.2
      ∧ (retrievePost env h1 req).2.1 req.user_id
          = (retrievePost env h2 req).2.1 req.user_id
      ∧ (∀ k, k ≠ req.user_id → (retrievePost env h1 req).2.1 k = h1 k) := by
  simp only [retrievePost]
  rw [hsame]
  repeat' split
  all_goals simp_all

/-- History store agreeing with `onePriorTurnMap` only at key "u1", used as
the C10 witness input. -/
def otherSessionsMap : HistMap :=
  fun k => if k = "u1" then [Turn.human "h0", Turn.ai "a0"] else [Turn.human "x"]

/-- Witness for C10 at two concrete history stores agreeing at key "u1". -/
theorem session_key_is_user_id_witness :
    (retrievePost okEnv onePriorTurnMap ⟨true, "q1", "sk", "u1"⟩).1
        = (retrievePost okEnv otherSessionsMap ⟨true, "q1", "sk", "u1"⟩).1
      ∧ (retrievePost okEnv onePriorTurnMap ⟨true, "q1", "sk", "u1"⟩).2.2
        = (retrievePost okEnv otherSessionsMap ⟨true, "q1", "sk", "u1"⟩).2.2
      ∧ (retrievePost okEnv onePriorTurnMap ⟨true, "q1", "sk", "u1"⟩).2.1 "u1"
        = (retrievePost okEnv otherSessionsMap ⟨true, "q1", "sk", "u1"⟩).2.1 "u1"
      ∧ (∀ k, k ≠ "u1"
          → (retrievePost okEnv onePriorTurnMap ⟨true, "q1", "sk", "u1"⟩).2.1 k
            = onePriorTurnMap k) :=
  session_key_is_user_id okEnv onePriorTurnMap otherSessionsMap
    ⟨true, "q1", "sk", "u1"⟩ (by decide)

/-- Extension part of Python `os.path.splitext` on a bare uploaded file name:
the suffix starting at the last dot, unless every character before that dot
is itself a dot (so ".bashrc" has no extension). -/
def extSplit (cs : List Char) : List Char :=
  match cs.reverse.findIdx? (· = '.') with
  | none => []
  | some i =>
    let cut := cs.length - 1 - i
    if (cs.take cut).any (· ≠ '.') then cs.drop cut else []

/-- File extension exactly as computed at src/knowledge/views.py lines 61-63:
the `os.path.splitext` extension of the uploaded name, lowercased. -/
def fileExtensionLower (file_name : String) : String :=
  String.mk ((extSplit file_name.data).map Char.toLower)

/-- Completed side effects of one run of the ingestion view, in the order the
view performs them. `setEnvKey` is the process-wide mutation
`os.environ["OPENAI_API_KEY"] = ...` at src/knowledge/views.py line 82. -/
inductive IEffect where
  | makeTmpDir (path : String)
  | saveFile (path : String)
  | uploadBlob (storage_path : String)
  | setEnvKey (key : String)
  | createCollection (name : String)
  | createCatalogEntry (url : String) (collection_id : Nat)
  | rmTree (path : String)
deriving DecidableEq

/-- External collaborators of `KnowledgeView.post`: the blob store, the file
helper's loader table (helpers/file_helper.py is not under src/ and is
modelled from the spec as a possibly-absent loader per extension), the
embedding/vector-store write, the catalog, and `shutil.rmtree`. `token` is the
url-safe random token drawn at line 68, made explicit so runs are pure. -/
structure IngestEnv where
  doc_extensions : List String
  token : String
  save : Except Err Unit
  upload_blob : String → String → Except Err String
  get_loader : String → String → Option Unit
  load : Except Err (List String)
  create_collection : String → Except Err Unit
  lookup_uuid : String → Except Err Nat
  create_knowledge : String → Nat → Except Err Unit
  rmtree : String → Except Err Unit

/-- Validated body of an ingestion request (`KnowledgeCreateSerializer`). -/
structure IngestRequest where
  valid : Bool
  file_name : String
  openai_api_key : String

/-- Body of the `try` block of `KnowledgeView.post` (src/knowledge/views.py
lines 55-122): the outcome (a returned response, or a raised error), the value
of the local variable `tmp_storage_path` if it was assigned before the raise,
and the completed side effects in order. -/
def ingestBody (env : IngestEnv) (req : IngestRequest) :
    Except Err Response × Option String × List IEffect :=
  if req.valid = false then (.error "validation error", none, [])
  else
    let file_extension := fileExtensionLower req.file_name
    if file_extension ∈ env.doc_extensions then
      let tmp_storage_path := "tmp/" ++ env.token
      let file_path := tmp_storage_path ++ "/" ++ req.file_name
      let effs0 := [IEffect.makeTmpDir tmp_storage_path]
      match env.save with
      | .error e => (.error e, some tmp_storage_path, effs0)
      | .ok _ =>
        let effs1 := effs0 ++ [IEffect.saveFile file_path]
        let storage_path := "knowledges/" ++ env.token ++ "_" ++ req.file_name
        match env.upload_blob file_path storage_path with
        | .error e => (.error e, some tmp_storage_path, effs1)
        | .ok knowledge_url =>
          let effs2 := effs1
            ++ [IEffect.uploadBlob storage_path, IEffect.setEnvKey req.openai_api_key]
          match env.get_loader file_path file_extension with
          | none =>
            (.ok (jsonErr 400 ("File extension " ++ file_extension ++ " is not supported")),
             some tmp_storage_path, effs2)
          | some _ =>
            match env.load with
            | .error e => (.error e, some tmp_storage_path, effs2)
            | .ok _docs =>
              let collection_name := "langchain_" ++ env.token
              match env.create_collection collection_name with
              | .error e => (.error e, some tmp_storage_path, effs2)
              | .ok _ =>
                let effs3 := effs2 ++ [IEffect.createCollection collection_name]
                match env.lookup_uuid collection_name with
                | .error e => (.error e, some tmp_storage_path, effs3)
                | .ok collection_id =>
                  match env.create_knowledge knowledge_url collection_id with
                  | .error e => (.error e, some tmp_storage_path, effs3)
                  | .ok _ =>
                    let effs4 := effs3
                      ++ [IEffect.createCatalogEntry knowledge_url collection_id]
                    match env.rmtree tmp_storage_path with
                    | .error e => (.error e, some tmp_storage_path, effs4)
                    | .ok _ =>
                      (.ok (jsonOk "Successfully created embeddings"),
                       some tmp_storage_path,
                       effs4 ++ [IEffect.rmTree tmp_storage_path])
    else (.ok (jsonErr 400 "Please upload a txt file"), none, [])

/-- Shallow embedding of `KnowledgeView.post` (src/knowledge/views.py lines
54-126) including its `except` handler, which runs
`shutil.rmtree(tmp_storage_path)` unguarded before answering with the caught
error message. When `tmp_storage_path` was never assigned the handler itself
raises `UnboundLocalError`; when the cleanup raises, that second exception
escapes the handler and replaces the original message. -/
def ingestPost (env : IngestEnv) (req : IngestRequest) : Response × List IEffect :=
  match ingestBody env req with
  | (.ok resp, _, effs) => (resp, effs)
  | (.error _, none, effs) =>
    (unhandledError "local variable tmp_storage_path referenced before assignment", effs)
  | (.error e, some p, effs) =>
    match env.rmtree p with
    | .ok _ => (jsonErr 500 e, effs ++ [IEffect.rmTree p])
    | .error e2 => (unhandledError e2, effs)

/-- Concrete ingestion environment in which the vector-store write fails with
message "boom" and the temp-dir cleanup itself fails with "cleanup failed". -/
def cleanupFailEnv : IngestEnv where
  doc_extensions := [".txt"]
  token := "tok"
  save := .ok ()
  upload_blob := fun _ _ => .ok "http://blob/a"
  get_loader := fun _ _ => some ()
  load := .ok ["text"]
  create_collection := fun _ => .error "boom"
  lookup_uuid := fun _ => .ok 1
  create_knowledge := fun _ _ => .ok ()
  rmtree := fun _ => .error "cleanup failed"

/-- C6 (code bug): in a concrete ingestion run whose vector-store write raises
"boom" and whose temp-dir cleanup then also raises, the `except` handler's
unguarded `shutil.rmtree` lets the cleanup exception escape, so the caller
receives the cleanup failure instead of the original message "boom" — the
secondary failure masks the original error, against the claim. A failure
raised before `tmp_storage_path` is assigned (an invalid request body) is
masked the same way by the handler's own `UnboundLocalError`. -/
theorem ingest_cleanup_failure_masks_original :
    (ingestPost cleanupFailEnv ⟨true, "a.txt", "sk"⟩).1 = unhandledError "cleanup failed"
      ∧ (ingestPost cleanupFailEnv ⟨true, "a.txt", "sk"⟩).1.message ≠ "boom"
      ∧ (ingestPost cleanupFailEnv ⟨false, "a.txt", "sk"⟩).1
        = unhandledError "local variable tmp_storage_path referenced before assignment" := by
  refine ⟨by decide, by decide, by decide⟩

/-- Concrete ingestion environment whose file helper has no loader for any
extension, while every other collaborator succeeds. -/
def noLoaderEnv : IngestEnv where
  doc_extensions := [".abc"]
  token := "tok"
  save := .ok ()
  upload_blob := fun _ _ => .ok "http://blob/a"
  get_loader := fun _ _ => none
  load := .ok ["text"]
  create_collection := fun _ => .ok ()
  lookup_uuid := fun _ => .ok 1
  create_knowledge := fun _ _ => .ok ()
  rmtree := fun _ => .ok ()

/-- C7 counterexample: an ingestion request whose extension is accepted but
for which no loader is available is rejected with a 400 validation response,
yet the blob has already been uploaded by then (src/knowledge/views.py line
78 runs before the loader check at line 84), so "no blob is uploaded" fails. -/
theorem unsupported_format_uploads_blob :
    (ingestPost noLoaderEnv ⟨true, "a.abc", "sk"⟩).1
        = jsonErr 400 "File extension .abc is not supported"
      ∧ IEffect.uploadBlob "knowledges/tok_a.abc"
          ∈ (ingestPost noLoaderEnv ⟨true, "a.abc", "sk"⟩).2 := by
  refine ⟨by decide, by decide⟩

/-- C7 amended: a request whose extension is not accepted is rejected with a
400 response before any side effect; a request whose extension is accepted
but has no loader is rejected with a 400 response only after the file has
been staged, the blob uploaded, and the credential environment set — though
still before any vector collection is created or catalog entry written. -/
theorem unsupported_format_rejection
    (env : IngestEnv) (req : IngestRequest) (hvalid : req.valid = true) :
    (fileExtensionLower req.file_name ∉ env.doc_extensions
        → ingestPost env req = (jsonErr 400 "Please upload a txt file", []))
      ∧ (fileExtensionLower req.file_name ∈ env.doc_extensions
          → env.save = .ok ()
          → ∀ url,
              env.upload_blob ("tmp/" ++ env.token ++ "/" ++ req.file_name)
                  ("knowledges/" ++ env.token ++ "_" ++ req.file_name) = .ok url
          → env.get_loader ("tmp/" ++ env.token ++ "/" ++ req.file_name)
              (fileExtensionLower req.file_name) = none
          → ingestPost env req
              = (jsonErr 400
                  ("File extension " ++ fileExtensionLower req.file_name
                    ++ " is not supported"),
                 [IEffect.makeTmpDir ("tmp/" ++ env.token),
                  IEffect.saveFile ("tmp/" ++ env.token ++ "/" ++ req.file_name),
                  IEffect.uploadBlob ("knowledges/" ++ env.token ++ "_" ++ req.file_name),
                  IEffect.setEnvKey req.openai_api_key])) := by
  constructor
  · intro hext
    simp [ingestPost, ingestBody, hvalid, hext]
  · intro hext hsave url hup hload
    simp [ingestPost, ingestBody, hvalid, hext, hsave, hup, hload]

/-- Witness for amended C7 at the concrete no-loader environment. -/
theorem unsupported_format_rejection_witness :
    ingestPost noLoaderEnv ⟨true, "a.abc", "sk"⟩
        = (jsonErr 400 "File extension .abc is not supported",
           [IEffect.makeTmpDir "tmp/tok", IEffect.saveFile "tmp/tok/a.abc",
            IEffect.uploadBlob "knowledges/tok_a.abc", IEffect.setEnvKey "sk"]) := by
  rw [(unsupported_format_rejection noLoaderEnv ⟨true, "a.abc", "sk"⟩ rfl).2
    (by decide) rfl "http://blob/a" rfl rfl]
  decide

/-- Completed side effects of one run of the deletion view, in order.
`setEnvKey` is the process-wide mutation at src/knowledge/views.py line 137;
the other three are the vector-store drop (line 150), the catalog row removal
(line 152) and the blob deletion (line 155). -/
inductive DEffect where
  | setEnvKey (key : String)
  | dropCollection (name : String)
  | deleteCatalogRow (url : String)
  | deleteBlob (blob_name : String)
deriving DecidableEq

/-- External collaborators of `KnowledgeView.delete`: the catalog lookups, the
vector store, the catalog row deletion, the blob-name helper and the blob
store. Each fallible call raises on failure, answered by the view's `except`
block with the exception message. -/
structure DeleteEnv where
  lookup_collection_id : String → Except Err Nat
  lookup_collection_name : Nat → Except Err String
  delete_collection : String → Except Err Unit
  delete_knowledge_row : String → Except Err Unit
  get_blob_name : String → String
  delete_blob : String → Except Err Unit

/-- Validated body of a deletion request (`KnowledgeDeleteSerializer`). -/
structure DeleteRequest where
  valid : Bool
  url : String
  openai_api_key : String

/-- Shallow embedding of `KnowledgeView.delete` (src/knowledge/views.py lines
128-160): resolve the Document Reference to a collection, drop the collection
from the vector store, remove the catalog row, then delete the blob, stopping
at the first failure with a 500 carrying the exception message. -/
def deletePost (env : DeleteEnv) (req : DeleteRequest) : Response × List DEffect :=
  if req.valid = false then (jsonErr 500 "validation error", [])
  else
    let effs0 := [DEffect.setEnvKey req.openai_api_key]
    match env.lookup_collection_id req.url with
    | .error e => (jsonErr 500 e, effs0)
    | .ok collection_id =>
      match env.lookup_collection_name collection_id with
      | .error e => (jsonErr 500 e, effs0)
      | .ok collection_name =>
        match env.delete_collection collection_name with
        | .error e => (jsonErr 500 e, effs0)
        | .ok _ =>
          let effs1 := effs0 ++ [DEffect.dropCollection collection_name]
          match env.delete_knowledge_row req.url with
          | .error e => (jsonErr 500 e, effs1)
          | .ok _ =>
            let effs2 := effs1 ++ [DEffect.deleteCatalogRow req.url]
            match env.delete_blob (env.get_blob_name req.url) with
            | .error e => (jsonErr 500 e, effs2)
            | .ok _ =>
              (jsonOk "Successfully deleted",
               effs2 ++ [DEffect.deleteBlob (env.get_blob_name req.url)])

/-- Store-operation index of a deletion effect: the three backing-store steps
in their contractual order; the credential mutation is not a store step. -/
def DEffect.storeTag : DEffect → Option Nat
  | .setEnvKey _ => none
  | .dropCollection _ => some 0
  | .deleteCatalogRow _ => some 1
  | .deleteBlob _ => some 2

/-- Concrete deletion environment whose catalog row removal fails after the
vector-store drop succeeded. -/
def rowFailEnv : DeleteEnv where
  lookup_collection_id := fun _ => .ok 1
  lookup_collection_name := fun _ => .ok "col1"
  delete_collection := fun _ => .ok ()
  delete_knowledge_row := fun _ => .error "row gone wrong"
  get_blob_name := fun u => u
  delete_blob := fun _ => .ok ()

/-- C8: every valid deletion run performs the three store steps in the order
vector-store drop, catalog-row removal, blob deletion — the store trace is a
prefix of that order, and the full sequence exactly on success — and the
operation is not transactional: in the concrete run where the row removal
fails, the collection has already been dropped, the row and the blob survive,
and the caller gets a 500. -/
theorem delete_best_effort_sequential
    (env : DeleteEnv) (req : DeleteRequest) (hvalid : req.valid = true) :
    ((deletePost env req).2.filterMap DEffect.storeTag) <+: [0, 1, 2]
      ∧ ((deletePost env req).1.status = 200
          → (deletePost env req).2.filterMap DEffect.storeTag = [0, 1, 2])
      ∧ (deletePost rowFailEnv ⟨true, "u", "sk"⟩).2.filterMap DEffect.storeTag = [0]
      ∧ (deletePost rowFailEnv ⟨true, "u", "sk"⟩).1 = jsonErr 500 "row gone wrong" := by
  refine ⟨?_, ?_, by decide, by decide⟩
  · simp only [deletePost, hvalid]
    repeat' split
    all_goals simp [DEffect.storeTag]
  · simp only [deletePost, hvalid]
    repeat' split
    all_goals simp_all [DEffect.storeTag, jsonOk, jsonErr]

/-- Concrete deletion environment where every collaborator succeeds. -/
def deleteOkEnv : DeleteEnv where
  lookup_collection_id := fun _ => .ok 1
  lookup_collection_name := fun _ => .ok "col1"
  delete_collection := fun _ => .ok ()
  delete_knowledge_row := fun _ => .ok ()
  get_blob_name := fun u => u
  delete_blob := fun _ => .ok ()

/-- Witness for C8 at a concrete fully successful deletion. -/
theorem delete_best_effort_sequential_witness :
    ((deletePost deleteOkEnv ⟨true, "u", "sk"⟩).2.filterMap DEffect.storeTag) <+: [0, 1, 2]
      ∧ ((deletePost deleteOkEnv ⟨true, "u", "sk"⟩).1.status = 200
          → (deletePost deleteOkEnv ⟨true, "u", "sk"⟩).2.filterMap DEffect.storeTag
            = [0, 1, 2])
      ∧ (deletePost rowFailEnv ⟨true, "u", "sk"⟩).2.filterMap DEffect.storeTag = [0]
      ∧ (deletePost rowFailEnv ⟨true, "u", "sk"⟩).1 = jsonErr 500 "row gone wrong" :=
  delete_best_effort_sequential deleteOkEnv ⟨true, "u", "sk"⟩ rfl

/-- C9 counterexample: a concrete query run does mutate process-wide
credential state — the trace of `KnowledgeRetrieveView.post` records the
`os.environ["OPENAI_API_KEY"]` assignment of src/knowledge/views.py line 180,
so the claim that no operation sets the credential as global state is false. -/
theorem global_credential_mutation_occurs :
    QStep.setEnv "sk" ∈ (retrievePost okEnv (fun _ => []) ⟨true, "q1", "sk", "u1"⟩).2.2 := by
  decide

/-- C9 amended: every valid request mutates the process-wide credential
environment before its service calls — the query view and the deletion view
always record the `OPENAI_API_KEY` assignment, and the ingestion view records
it as soon as the extension is accepted, the file staged and the blob
uploaded; only the query view's embedding call additionally passes the
credential explicitly in its signature. -/
theorem global_credential_mutation_everywhere
    (env : REnv) (hists : HistMap) (req : RetrieveRequest) (hv : req.valid = true)
    (denv : DeleteEnv) (dreq : DeleteRequest) (hdv : dreq.valid = true)
    (ienv : IngestEnv) (ireq : IngestRequest) (hiv : ireq.valid = true)
    (hext : fileExtensionLower ireq.file_name ∈ ienv.doc_extensions)
    (hsave : ienv.save = .ok ()) (url : String)
    (hup : ienv.upload_blob ("tmp/" ++ ienv.token ++ "/" ++ ireq.file_name)
        ("knowledges/" ++ ienv.token ++ "_" ++ ireq.file_name) = .ok url) :
    QStep.setEnv req.openai_api_key ∈ (retrievePost env hists req).2.2
      ∧ DEffect.setEnvKey dreq.openai_api_key ∈ (deletePost denv dreq).2
      ∧ IEffect.setEnvKey ireq.openai_api_key ∈ (ingestPost ienv ireq).2 := by
  refine ⟨?_, ?_, ?_⟩
  · simp only [retrievePost, hv]
    repeat' split
    all_goals simp_all
  · simp only [deletePost, hdv]
    repeat' split
    all_goals simp_all
  · have hbody : IEffect.setEnvKey ireq.openai_api_key ∈ (ingestBody ienv ireq).2.2 := by
      simp only [ingestBody, hiv, hext, hsave, hup]
      repeat' split
      all_goals simp_all
    unfold ingestPost
    repeat' split
    all_goals simp_all

/-- Witness for amended C9 at concrete successful runs of all three views. -/
theorem global_credential_mutation_everywhere_witness :
    QStep.setEnv "sk" ∈ (retrievePost okEnv (fun _ => []) ⟨true, "q1", "sk", "u1"⟩).2.2
      ∧ DEffect.setEnvKey "sk" ∈ (deletePost deleteOkEnv ⟨true, "u", "sk"⟩).2
      ∧ IEffect.setEnvKey "sk" ∈ (ingestPost noLoaderEnv ⟨true, "a.abc", "sk"⟩).2 :=
  global_credential_mutation_everywhere okEnv (fun _ => []) ⟨true, "q1", "sk", "u1"⟩ rfl
    deleteOkEnv ⟨true, "u", "sk"⟩ rfl noLoaderEnv ⟨true, "a.abc", "sk"⟩ rfl
    (by decide) rfl "http://blob/a" rfl
